import Mathlib

/-!
Shallow embedding of src/tetherpoint_st7567.py, a MicroPython ST7567 128x64
LCD driver, together with theorems checking the natural-language
specification against it.

Modelling conventions:
* A byte is a `Nat` (all values produced by the code are < 256).
* A bus interaction is an `Ev`: `Ev.cmd bs` is one `_write_command` transfer
  (dc low) carrying the bytes `bs`, `Ev.data bs` is one `_write_data`
  transfer (dc high); `Ev.rsLow` / `Ev.rsHigh` record the hardware-reset
  line toggle (no bus bytes).  The chip-select framing around every
  transfer is constant and not recorded.
* Python's `bytearray(x)` is polymorphic: on an `int` `n` it yields `n`
  ZERO bytes, on a list it yields those bytes.  `pyBytearray` models this
  exactly, because `_write_command` applies `bytearray` to whatever it is
  handed (sometimes an int, sometimes a list).
* `__init__` assigns `self.cs` / `self.rs` only when the argument is not
  None, yet `_write_command`, `_write_data` and `reset` read those
  attributes unconditionally; a read of a never-assigned attribute raises
  `AttributeError`.  The state records attribute presence in `csAssigned` /
  `rsAssigned`, and fallible operations return `Except PyErr _`.
* The inherited framebuf drawing surface is external; only the byte buffer
  it renders into (`buffer`, 1024 bytes after construction) matters here.
-/

/-- The only exception the modelled code paths can raise: reading a
never-assigned attribute (`self.cs` / `self.rs`). -/
inductive PyErr where
  | attributeError
deriving DecidableEq

/-- Argument of Python's `bytearray` as used by `_write_command`: either an
`int` or a list of ints. -/
inductive PyVal where
  | int (n : Nat)
  | list (l : List Nat)
deriving DecidableEq

/-- Python `bytearray(x)`: an int `n` gives `n` zero bytes, a list gives its
elements. -/
def pyBytearray : PyVal → List Nat
  | PyVal.int n => List.replicate n 0
  | PyVal.list l => l

/-- One observable interaction of the driver with the outside world. -/
inductive Ev where
  | cmd (bytes : List Nat)
  | data (bytes : List Nat)
  | rsLow
  | rsHigh
deriving DecidableEq

-- Constants: display registers (module level in the source)
def ST7567_DISPLAY_OFF : Nat := 0xAE
def ST7567_DISPLAY_ON : Nat := 0xAF
def ST7567_SET_START_LINE : Nat := 0x40
def ST7567_SET_PAGE_ADDRESS : Nat := 0xB0
def ST7567_SET_COL_ADDRESS_MSB : Nat := 0x10
def ST7567_SET_COL_ADDRESS_LSB : Nat := 0x00
def ST7567_SEG_DIRECTION_NORMAL : Nat := 0xA0
def ST7567_SEG_DIRECTION_REVERSE : Nat := 0xA1
def ST7567_DISPLAY_NORMAL : Nat := 0xA6
def ST7567_DISPLAY_INVERSE : Nat := 0xA7
def ST7567_DISPLAY_ALL_PIXELS_NORMAL : Nat := 0xA4
def ST7567_DISPLAY_ALL_PIXELS_ON : Nat := 0xA5
def ST7567_BIAS_SELECT_1DIV9 : Nat := 0xA2
def ST7567_BIAS_SELECT_1DIV7 : Nat := 0xA3
def ST7567_RESET : Nat := 0xE2
def ST7567_COM_DIRECTION_NORMAL : Nat := 0xC0
def ST7567_COM_DIRECTION_REVERSE : Nat := 0xC8
def ST7567_POWER_CONTROL : Nat := 0x28
def ST7567_REGULATION_RATIO : Nat := 0x20
def ST7567_SET_EV_START : Nat := 0x81
def ST7567_SET_BOOSTER_START : Nat := 0xF8
def ST7567_SET_BOOSTER_4X : Nat := 0x00
def ST7567_SET_BOOSTER_5X : Nat := 0x01

/-- Driver state: the stored column offset `_xoffset`, the framebuf byte
buffer, and whether the optional `cs` / `rs` attributes were assigned. -/
structure DriverState where
  xoffset : Nat
  buffer : List Nat
  csAssigned : Bool
  rsAssigned : Bool
deriving DecidableEq

namespace ST7567

/-- `_write_command(cmd)`: `self.cs.value(0)` raises `AttributeError` when
`cs` was never assigned; otherwise one command transfer of
`bytearray(cmd)`. -/
def write_command (s : DriverState) (cmd : PyVal) : Except PyErr Ev :=
  if s.csAssigned then Except.ok (Ev.cmd (pyBytearray cmd)) else Except.error PyErr.attributeError

/-- `_write_data(data)`: `self.cs.value(0)` raises `AttributeError` when
`cs` was never assigned; otherwise one data transfer of `data`. -/
def write_data (s : DriverState) (d : List Nat) : Except PyErr Ev :=
  if s.csAssigned then Except.ok (Ev.data d) else Except.error PyErr.attributeError

/-- `reset()`: the guard `if self.rs != None:` itself raises
`AttributeError` when `rs` was never assigned; when it was assigned the
stored line is non-None, so the toggle always runs, then the software reset
command is written (as `bytearray(0xE2)`, i.e. 226 zero bytes). -/
def reset (s : DriverState) : Except PyErr (List Ev) := do
  if s.rsAssigned then
    let w ← write_command s (PyVal.int ST7567_RESET)
    pure [Ev.rsLow, Ev.rsHigh, w]
  else
    Except.error PyErr.attributeError

/-- The `init_commands` list built inside `init()`. -/
def init_commands (rotation : Int) (inverse : Bool) (contrast rr : Nat) : List Nat :=
  [ST7567_SET_BOOSTER_START, ST7567_SET_BOOSTER_4X,
   ST7567_BIAS_SELECT_1DIV7,
   (if rotation = 180 then ST7567_SEG_DIRECTION_REVERSE else ST7567_SEG_DIRECTION_NORMAL),
   (if rotation = 180 then ST7567_COM_DIRECTION_NORMAL else ST7567_COM_DIRECTION_REVERSE),
   (if inverse then ST7567_DISPLAY_INVERSE else ST7567_DISPLAY_NORMAL),
   ST7567_REGULATION_RATIO ||| (rr &&& 0x07),
   ST7567_SET_EV_START, contrast &&& 0x3F,
   ST7567_POWER_CONTROL ||| 0x04,
   ST7567_POWER_CONTROL ||| 0x06,
   ST7567_POWER_CONTROL ||| 0x07,
   ST7567_SET_START_LINE ||| 0x00,
   ST7567_DISPLAY_ALL_PIXELS_NORMAL,
   ST7567_DISPLAY_ON]

/-- `init(rotation, inverse, contrast, regulation_ratio)`: a single command
transfer carrying the whole `init_commands` list. -/
def init (s : DriverState) (rotation : Int) (inverse : Bool) (contrast rr : Nat) :
    Except PyErr (List Ev) := do
  let w ← write_command s (PyVal.list (init_commands rotation inverse contrast rr))
  pure [w]

/-- `contrast(contrast)`: two command transfers, each handed an `int`. -/
def contrast (s : DriverState) (c : Nat) : Except PyErr (List Ev) := do
  let w1 ← write_command s (PyVal.int ST7567_SET_EV_START)
  let w2 ← write_command s (PyVal.int (c &&& 0x3F))
  pure [w1, w2]

/-- `invert(inverse)`. -/
def invert (s : DriverState) (inverse : Bool) : Except PyErr (List Ev) := do
  if inverse = false then
    let w ← write_command s (PyVal.int ST7567_DISPLAY_NORMAL)
    pure [w]
  else
    let w ← write_command s (PyVal.int ST7567_DISPLAY_INVERSE)
    pure [w]

/-- `rotate(rotation)`: updates `_xoffset` on the recognised values 0 and
180; any other value falls through both branches and the method body does
nothing at all. -/
def rotate (s : DriverState) (rotation : Int) : Except PyErr (DriverState × List Ev) := do
  if rotation = 0 then
    let w1 ← write_command s (PyVal.int ST7567_SEG_DIRECTION_NORMAL)
    let w2 ← write_command s (PyVal.int ST7567_COM_DIRECTION_NORMAL)
    pure ({ s with xoffset := 0x00 }, [w1, w2])
  else if rotation = 180 then
    let w1 ← write_command s (PyVal.int ST7567_SEG_DIRECTION_REVERSE)
    let w2 ← write_command s (PyVal.int ST7567_COM_DIRECTION_REVERSE)
    pure ({ s with xoffset := 0x04 }, [w1, w2])
  else
    pure (s, [])

/-- `sleep(on)`. -/
def sleep (s : DriverState) (onFlag : Bool) : Except PyErr (List Ev) := do
  if onFlag then
    let w1 ← write_command s (PyVal.int ST7567_DISPLAY_OFF)
    let w2 ← write_command s (PyVal.int ST7567_DISPLAY_ALL_PIXELS_ON)
    pure [w1, w2]
  else
    let w1 ← write_command s (PyVal.int ST7567_DISPLAY_ALL_PIXELS_NORMAL)
    let w2 ← write_command s (PyVal.int ST7567_DISPLAY_ON)
    pure [w1, w2]

/-- The body of `show()`'s `for page_count in range(8)` loop, run over the
remaining page indices. -/
def showLoop (s : DriverState) : List Nat → Except PyErr (List Ev)
  | [] => Except.ok []
  | page_count :: rest => do
    let wc ← write_command s (PyVal.list
      [ST7567_SET_PAGE_ADDRESS ||| page_count,
       ST7567_SET_COL_ADDRESS_MSB ||| 0x00,
       ST7567_SET_COL_ADDRESS_LSB ||| s.xoffset])
    let wd ← write_data s ((s.buffer.drop (128 * page_count)).take 128)
    let ws ← showLoop s rest
    pure (wc :: wd :: ws)

/-- `show()`: one start-line command transfer, then the page loop.  The
slice `self.buffer[128*p : 128*p+128]` is `(drop (128*p)).take 128`. -/
def show' (s : DriverState) : Except PyErr (List Ev) := do
  let w0 ← write_command s (PyVal.list [ST7567_SET_START_LINE ||| 0x00])
  let ws ← showLoop s (List.range 8)
  pure (w0 :: ws)

/-- `__init__(spi, dc, cs, rs, rotation, inverse, contrast,
regulation_ratio)`: sets `_xoffset`, records which optional lines were
supplied, allocates the zeroed 1024-byte buffer (`fill(0)` keeps it zero),
then runs `reset()`, `show()`, `init(...)`, `rotate(rotation)`,
`invert(inverse)` in that order. -/
def construct (csGiven rsGiven : Bool) (rotation : Int) (inverse : Bool)
    (contrastArg rr : Nat) : Except PyErr (DriverState × List Ev) := do
  let s0 : DriverState :=
    { xoffset := if rotation = 0 then 0x00 else 0x04
      buffer := List.replicate (128 * 64 / 8) 0
      csAssigned := csGiven
      rsAssigned := rsGiven }
  let e1 ← reset s0
  let e2 ← show' s0
  let e3 ← init s0 rotation inverse contrastArg rr
  let (s1, e4) ← rotate s0 rotation
  let e5 ← invert s1 inverse
  pure (s1, e1 ++ e2 ++ e3 ++ e4 ++ e5)

end ST7567

namespace ST7567

/-- The event trace `show()` produces when `cs` is assigned (proved equal to
`show'` in `show_eq` below). -/
def showEvs (s : DriverState) : List Ev :=
  Ev.cmd [ST7567_SET_START_LINE ||| 0x00] ::
    (List.range 8).flatMap (fun p =>
      [Ev.cmd [ST7567_SET_PAGE_ADDRESS ||| p,
               ST7567_SET_COL_ADDRESS_MSB ||| 0x00,
               ST7567_SET_COL_ADDRESS_LSB ||| s.xoffset],
       Ev.data ((s.buffer.drop (128 * p)).take 128)])

/-- The data payloads of a trace, in order. -/
def dataPayloads (evs : List Ev) : List (List Nat) :=
  evs.filterMap (fun e => match e with
    | Ev.data d => some d
    | _ => none)

/-- The page indices of the page-address command bytes of a trace, in
order: a command transfer whose first byte is `0xB0 ||| page` addresses
that page. -/
def pagesAddressed (evs : List Ev) : List Nat :=
  evs.filterMap (fun e => match e with
    | Ev.cmd (b :: _) =>
        if ST7567_SET_PAGE_ADDRESS ≤ b ∧ b < ST7567_SET_PAGE_ADDRESS + 16
        then some (b - ST7567_SET_PAGE_ADDRESS) else none
    | _ => none)

/-- The column-address LSB bytes of a trace: the third byte of each
three-byte command transfer (in `show()`'s trace exactly the page-setup
transfers have three bytes). -/
def colLSBbytes (evs : List Ev) : List Nat :=
  evs.filterMap (fun e => match e with
    | Ev.cmd [_, _, x] => some x
    | _ => none)

/-- All command bytes of a trace, flattened across transfers. -/
def cmdBytes (evs : List Ev) : List Nat :=
  (evs.filterMap (fun e => match e with
    | Ev.cmd bs => some bs
    | _ => none)).flatten

theorem write_command_ok (s : DriverState) (v : PyVal) (hcs : s.csAssigned = true) :
    write_command s v = Except.ok (Ev.cmd (pyBytearray v)) := by
  simp [write_command, hcs]

theorem write_data_ok (s : DriverState) (d : List Nat) (hcs : s.csAssigned = true) :
    write_data s d = Except.ok (Ev.data d) := by
  simp [write_data, hcs]

theorem range_eight : List.range 8 = [0, 1, 2, 3, 4, 5, 6, 7] := by decide

theorem showLoop_eq (s : DriverState) (hcs : s.csAssigned = true) (ps : List Nat) :
    showLoop s ps = Except.ok (ps.flatMap (fun p =>
      [Ev.cmd [ST7567_SET_PAGE_ADDRESS ||| p,
               ST7567_SET_COL_ADDRESS_MSB ||| 0x00,
               ST7567_SET_COL_ADDRESS_LSB ||| s.xoffset],
       Ev.data ((s.buffer.drop (128 * p)).take 128)])) := by
  induction ps with
  | nil => simp [showLoop]
  | cons p rest ih =>
      simp only [showLoop, write_command_ok s _ hcs, write_data_ok s _ hcs, ih, pyBytearray]
      rfl

theorem show_eq (s : DriverState) (hcs : s.csAssigned = true) :
    show' s = Except.ok (showEvs s) := by
  simp only [show', write_command_ok s _ hcs, showLoop_eq s hcs, showEvs, pyBytearray]
  rfl

end ST7567

namespace ST7567

/-- A freshly constructed state (both optional lines supplied, rotation 0):
zeroed 1024-byte buffer, offset 0. -/
def st0 : DriverState :=
  { xoffset := 0, buffer := List.replicate 1024 0, csAssigned := true, rsAssigned := true }

/-- Concatenating the eight 128-byte page slices of a 1024-byte buffer
gives back the whole buffer. -/
theorem slices_cover (l : List Nat) (h : l.length = 1024) :
    ((List.range 8).map (fun p => (l.drop (128 * p)).take 128)).flatten = l := by
  have k : ∀ a : Nat, (l.drop a).take 128 ++ l.drop (a + 128) = l.drop a := by
    intro a
    conv_rhs => rw [← List.take_append_drop 128 (l.drop a)]
    rw [List.drop_drop]
  have e7 : (l.drop 896).take 128 = l.drop 896 :=
    List.take_of_length_le (by simp [h])
  have k6 := k 768
  have k5 := k 640
  have k4 := k 512
  have k3 := k 384
  have k2 := k 256
  have k1 := k 128
  norm_num at k6 k5 k4 k3 k2 k1
  simp only [range_eight, List.map_cons, List.map_nil, List.flatten_cons, List.flatten_nil,
    List.append_nil]
  norm_num [List.drop_zero]
  rw [e7, k6, k5, k4, k3, k2, k1]
  exact List.take_append_drop 128 l

end ST7567

namespace ST7567

/-- C1: for every buffer state and every rotation state (any `xoffset`),
one `show()` call emits exactly 8 page-write sequences, visiting pages in
strictly increasing order 0 through 7 (the page-address bytes are exactly
`[0,1,...,7]` in order), and for each page the data payload is exactly the
128-byte buffer slice `[128*page, 128*page+128)`; concatenating the
payloads re-transmits the entire 1024-byte buffer. -/
theorem show_retransmits_entire_buffer (s : DriverState)
    (hcs : s.csAssigned = true) (hb : s.buffer.length = 1024) :
    show' s = Except.ok (showEvs s) ∧
    pagesAddressed (showEvs s) = List.range 8 ∧
    dataPayloads (showEvs s) =
      (List.range 8).map (fun p => (s.buffer.drop (128 * p)).take 128) ∧
    (dataPayloads (showEvs s)).map List.length = List.replicate 8 128 ∧
    (dataPayloads (showEvs s)).flatten = s.buffer := by
  have hdata : dataPayloads (showEvs s) =
      (List.range 8).map (fun p => (s.buffer.drop (128 * p)).take 128) := by
    simp [dataPayloads, showEvs, range_eight]
  refine ⟨show_eq s hcs, ?_, hdata, ?_, ?_⟩
  · simp [pagesAddressed, showEvs, range_eight, ST7567_SET_PAGE_ADDRESS,
      ST7567_SET_COL_ADDRESS_MSB, ST7567_SET_COL_ADDRESS_LSB, ST7567_SET_START_LINE]
  · rw [hdata]
    simp [range_eight, hb]
  · rw [hdata]
    exact slices_cover s.buffer hb

/-- Witness for C1 at a concrete freshly constructed state. -/
theorem show_retransmits_entire_buffer_witness :
    (st0.csAssigned = true ∧ st0.buffer.length = 1024) ∧
    (show' st0 = Except.ok (showEvs st0) ∧
     pagesAddressed (showEvs st0) = List.range 8 ∧
     dataPayloads (showEvs st0) =
       (List.range 8).map (fun p => (st0.buffer.drop (128 * p)).take 128) ∧
     (dataPayloads (showEvs st0)).map List.length = List.replicate 8 128 ∧
     (dataPayloads (showEvs st0)).flatten = st0.buffer) :=
  ⟨⟨rfl, by simp only [st0, List.length_replicate]⟩,
   show_retransmits_entire_buffer st0 rfl (by simp only [st0, List.length_replicate])⟩

end ST7567

namespace ST7567

/-- C2: for every rotation, inverse flag, contrast value and
regulation-ratio value, `init()` emits exactly one command transfer whose
bytes are the fixed golden sequence of the datasheet opcode table --
booster set (0xF8, 0x00), bias select 1/7 (0xA3), SEG direction per
rotation, COM direction per rotation, polarity per inverse flag, regulation
ratio, contrast EV opcode 0x81 then the masked value, power-control
booster-on 0x2C, regulator-on 0x2E, follower-on 0x2F, start-line 0x40,
all-pixels-normal 0xA4, display-on 0xAF -- and 0xAF is the last command
byte issued. -/
theorem init_golden_sequence (s : DriverState) (hcs : s.csAssigned = true)
    (rotation : Int) (inverse : Bool) (c rr : Nat) :
    init s rotation inverse c rr = Except.ok [Ev.cmd
      [0xF8, 0x00, 0xA3,
       (if rotation = 180 then 0xA1 else 0xA0),
       (if rotation = 180 then 0xC0 else 0xC8),
       (if inverse then 0xA7 else 0xA6),
       0x20 ||| (rr &&& 0x07), 0x81, c &&& 0x3F,
       0x2C, 0x2E, 0x2F, 0x40, 0xA4, 0xAF]] ∧
    (init_commands rotation inverse c rr).getLast? = some 0xAF := by
  constructor
  · simp only [init, write_command_ok s _ hcs, pyBytearray]
    rfl
  · rfl

/-- Witness for C2: rotation 180, inverted, out-of-range contrast 0x44 and
ratio 0x09 at the concrete constructed state. -/
theorem init_golden_sequence_witness :
    st0.csAssigned = true ∧
    (init st0 180 true 0x44 0x09 = Except.ok [Ev.cmd
      [0xF8, 0x00, 0xA3,
       (if (180 : Int) = 180 then 0xA1 else 0xA0),
       (if (180 : Int) = 180 then 0xC0 else 0xC8),
       (if true then 0xA7 else 0xA6),
       0x20 ||| (0x09 &&& 0x07), 0x81, 0x44 &&& 0x3F,
       0x2C, 0x2E, 0x2F, 0x40, 0xA4, 0xAF]] ∧
    (init_commands 180 true 0x44 0x09).getLast? = some 0xAF) :=
  ⟨rfl, init_golden_sequence st0 rfl 180 true 0x44 0x09⟩

end ST7567

namespace ST7567

theorem ok_bind {α β : Type} (a : α) (f : α → Except PyErr β) :
    (Except.ok a : Except PyErr α) >>= f = f a := rfl

theorem error_bind {α β : Type} (e : PyErr) (f : α → Except PyErr β) :
    (Except.error e : Except PyErr α) >>= f = Except.error e := rfl

theorem reset_ok (s : DriverState) (hcs : s.csAssigned = true) (hrs : s.rsAssigned = true) :
    reset s = Except.ok [Ev.rsLow, Ev.rsHigh, Ev.cmd (List.replicate ST7567_RESET 0)] := by
  simp [reset, hrs, write_command_ok s _ hcs, pyBytearray, ok_bind]

theorem init_ok (s : DriverState) (hcs : s.csAssigned = true)
    (rotation : Int) (inverse : Bool) (c rr : Nat) :
    init s rotation inverse c rr = Except.ok [Ev.cmd (init_commands rotation inverse c rr)] := by
  simp [init, write_command_ok s _ hcs, pyBytearray, ok_bind]

theorem contrast_eval (s : DriverState) (hcs : s.csAssigned = true) (c : Nat) :
    contrast s c = Except.ok
      [Ev.cmd (List.replicate ST7567_SET_EV_START 0),
       Ev.cmd (List.replicate (c &&& 0x3F) 0)] := by
  simp [contrast, write_command_ok s _ hcs, pyBytearray, ok_bind]

theorem invert_eval (s : DriverState) (hcs : s.csAssigned = true) (inverse : Bool) :
    invert s inverse = Except.ok
      [Ev.cmd (List.replicate
        (if inverse then ST7567_DISPLAY_INVERSE else ST7567_DISPLAY_NORMAL) 0)] := by
  cases inverse <;> simp [invert, write_command_ok s _ hcs, pyBytearray, ok_bind]

theorem rotate_zero (s : DriverState) (hcs : s.csAssigned = true) :
    rotate s 0 = Except.ok ({ s with xoffset := 0x00 },
      [Ev.cmd (List.replicate ST7567_SEG_DIRECTION_NORMAL 0),
       Ev.cmd (List.replicate ST7567_COM_DIRECTION_NORMAL 0)]) := by
  simp [rotate, write_command_ok s _ hcs, pyBytearray, ok_bind]

theorem rotate_pi180 (s : DriverState) (hcs : s.csAssigned = true) :
    rotate s 180 = Except.ok ({ s with xoffset := 0x04 },
      [Ev.cmd (List.replicate ST7567_SEG_DIRECTION_REVERSE 0),
       Ev.cmd (List.replicate ST7567_COM_DIRECTION_REVERSE 0)]) := by
  simp [rotate, write_command_ok s _ hcs, pyBytearray, ok_bind]

theorem rotate_other (s : DriverState) (rotation : Int)
    (h0 : rotation ≠ 0) (h180 : rotation ≠ 180) :
    rotate s rotation = Except.ok (s, []) := by
  simp only [rotate, h0, h180, if_false]
  rfl

theorem sleep_on_eval (s : DriverState) (hcs : s.csAssigned = true) :
    sleep s true = Except.ok
      [Ev.cmd (List.replicate ST7567_DISPLAY_OFF 0),
       Ev.cmd (List.replicate ST7567_DISPLAY_ALL_PIXELS_ON 0)] := by
  simp [sleep, write_command_ok s _ hcs, pyBytearray, ok_bind]

theorem sleep_off_eval (s : DriverState) (hcs : s.csAssigned = true) :
    sleep s false = Except.ok
      [Ev.cmd (List.replicate ST7567_DISPLAY_ALL_PIXELS_NORMAL 0),
       Ev.cmd (List.replicate ST7567_DISPLAY_ON 0)] := by
  simp [sleep, write_command_ok s _ hcs, pyBytearray, ok_bind]

/-- The column-address LSB byte of each page-setup transfer of `show()`'s
trace is the stored offset. -/
theorem colLSB_showEvs (s : DriverState) :
    colLSBbytes (showEvs s) =
      List.replicate 8 (ST7567_SET_COL_ADDRESS_LSB ||| s.xoffset) := by
  simp [colLSBbytes, showEvs, range_eight, ST7567_SET_COL_ADDRESS_LSB,
    ST7567_SET_START_LINE, List.replicate]

end ST7567

namespace ST7567

set_option maxRecDepth 4096 in
/-- Full evaluation of construction with both optional lines supplied and
rotation 0. -/
theorem construct_zero (inverse : Bool) (c rr : Nat) :
    construct true true 0 inverse c rr = Except.ok
      ({ xoffset := 0x00, buffer := List.replicate 1024 0,
         csAssigned := true, rsAssigned := true },
       [Ev.rsLow, Ev.rsHigh, Ev.cmd (List.replicate ST7567_RESET 0)] ++
       showEvs { xoffset := 0x00, buffer := List.replicate 1024 0,
                 csAssigned := true, rsAssigned := true } ++
       [Ev.cmd (init_commands 0 inverse c rr)] ++
       [Ev.cmd (List.replicate ST7567_SEG_DIRECTION_NORMAL 0),
        Ev.cmd (List.replicate ST7567_COM_DIRECTION_NORMAL 0)] ++
       [Ev.cmd (List.replicate
         (if inverse then ST7567_DISPLAY_INVERSE else ST7567_DISPLAY_NORMAL) 0)]) := by
  simp [construct, reset_ok, show_eq, init_ok, rotate_zero, invert_eval, ok_bind]

set_option maxRecDepth 4096 in
/-- Full evaluation of construction with both optional lines supplied and
rotation 180. -/
theorem construct_pi180 (inverse : Bool) (c rr : Nat) :
    construct true true 180 inverse c rr = Except.ok
      ({ xoffset := 0x04, buffer := List.replicate 1024 0,
         csAssigned := true, rsAssigned := true },
       [Ev.rsLow, Ev.rsHigh, Ev.cmd (List.replicate ST7567_RESET 0)] ++
       showEvs { xoffset := 0x04, buffer := List.replicate 1024 0,
                 csAssigned := true, rsAssigned := true } ++
       [Ev.cmd (init_commands 180 inverse c rr)] ++
       [Ev.cmd (List.replicate ST7567_SEG_DIRECTION_REVERSE 0),
        Ev.cmd (List.replicate ST7567_COM_DIRECTION_REVERSE 0)] ++
       [Ev.cmd (List.replicate
         (if inverse then ST7567_DISPLAY_INVERSE else ST7567_DISPLAY_NORMAL) 0)]) := by
  simp [construct, reset_ok, show_eq, init_ok, rotate_pi180, invert_eval, ok_bind]

end ST7567

namespace ST7567

/-- C3: the stored column offset is 0 after `rotate(0)` and 0x04 (the
ST7567 quirk value) after `rotate(180)`; after construction with rotation 0
or 180 it likewise matches the rotation; and `show()` always places the
current stored offset in the column-address LSB byte of every page-setup
transfer. -/
theorem xoffset_follows_rotation (s : DriverState) (hcs : s.csAssigned = true)
    (rotation : Int) (inverse : Bool) (c rr : Nat) :
    (∀ t evs, rotate s 0 = Except.ok (t, evs) →
        t.xoffset = 0x00 ∧ show' t = Except.ok (showEvs t) ∧
        colLSBbytes (showEvs t) = List.replicate 8 (ST7567_SET_COL_ADDRESS_LSB ||| 0x00)) ∧
    (∀ t evs, rotate s 180 = Except.ok (t, evs) →
        t.xoffset = 0x04 ∧ show' t = Except.ok (showEvs t) ∧
        colLSBbytes (showEvs t) = List.replicate 8 (ST7567_SET_COL_ADDRESS_LSB ||| 0x04)) ∧
    ((rotation = 0 ∨ rotation = 180) → ∀ t evs,
        construct true true rotation inverse c rr = Except.ok (t, evs) →
        t.xoffset = if rotation = 0 then 0x00 else 0x04) := by
  refine ⟨?_, ?_, ?_⟩
  · intro t evs h
    rw [rotate_zero s hcs] at h
    simp only [Except.ok.injEq, Prod.mk.injEq] at h
    obtain ⟨ht, -⟩ := h
    subst ht
    refine ⟨by simp, show_eq _ (by simpa using hcs), ?_⟩
    rw [colLSB_showEvs]
  · intro t evs h
    rw [rotate_pi180 s hcs] at h
    simp only [Except.ok.injEq, Prod.mk.injEq] at h
    obtain ⟨ht, -⟩ := h
    subst ht
    refine ⟨by simp, show_eq _ (by simpa using hcs), ?_⟩
    rw [colLSB_showEvs]
  · rintro (rfl | rfl) t evs h
    · rw [construct_zero inverse c rr] at h
      simp only [Except.ok.injEq, Prod.mk.injEq] at h
      obtain ⟨ht, -⟩ := h
      subst ht
      simp
    · rw [construct_pi180 inverse c rr] at h
      simp only [Except.ok.injEq, Prod.mk.injEq] at h
      obtain ⟨ht, -⟩ := h
      subst ht
      simp

end ST7567

namespace ST7567

/-- Witness for C3 at the concrete constructed state, rotation 180. -/
theorem xoffset_follows_rotation_witness :
    st0.csAssigned = true ∧
    ((∀ t evs, rotate st0 0 = Except.ok (t, evs) →
        t.xoffset = 0x00 ∧ show' t = Except.ok (showEvs t) ∧
        colLSBbytes (showEvs t) = List.replicate 8 (ST7567_SET_COL_ADDRESS_LSB ||| 0x00)) ∧
     (∀ t evs, rotate st0 180 = Except.ok (t, evs) →
        t.xoffset = 0x04 ∧ show' t = Except.ok (showEvs t) ∧
        colLSBbytes (showEvs t) = List.replicate 8 (ST7567_SET_COL_ADDRESS_LSB ||| 0x04)) ∧
     (((180 : Int) = 0 ∨ (180 : Int) = 180) → ∀ t evs,
        construct true true 180 false 0x1F 0x03 = Except.ok (t, evs) →
        t.xoffset = if (180 : Int) = 0 then 0x00 else 0x04)) :=
  ⟨rfl, xoffset_follows_rotation st0 rfl 180 false 0x1F 0x03⟩

/-- A concrete state with an empty buffer, for cheap concrete evaluation. -/
def cexS : DriverState :=
  { xoffset := 0, buffer := [], csAssigned := true, rsAssigned := true }

/-- The per-page presentation trace that the claim describes: for EACH page,
a start-line command, then the page-address/column commands, then the data
slice.  Written from the spec's words, for comparison with the code's
trace. -/
def showPerPageSpec (s : DriverState) : List Ev :=
  (List.range 8).flatMap (fun p =>
    [Ev.cmd [ST7567_SET_START_LINE ||| 0x00],
     Ev.cmd [ST7567_SET_PAGE_ADDRESS ||| p,
             ST7567_SET_COL_ADDRESS_MSB ||| 0x00,
             ST7567_SET_COL_ADDRESS_LSB ||| s.xoffset],
     Ev.data ((s.buffer.drop (128 * p)).take 128)])

/-- C8 counterexample: on a concrete state, `show()` emits exactly ONE
start-line command byte in its whole trace -- not one per page -- so the
emitted sequence is not the claimed per-page sequence. -/
theorem show_start_line_once_cex :
    show' cexS = Except.ok (showEvs cexS) ∧
    (cmdBytes (showEvs cexS)).count 0x40 = 1 ∧
    showEvs cexS ≠ showPerPageSpec cexS :=
  ⟨show_eq cexS rfl, by decide, by decide⟩

/-- C8 (amended): `show()` emits the start-line command (fixed to 0) once,
before the page loop; then for each page 0 through 7 in order one command
transfer carrying the page-address byte, the column-MSB byte and the
column-LSB byte seeded with the stored rotation offset, followed by that
page's 128-byte buffer slice as data. -/
theorem show_page_loop_structure (s : DriverState) (hcs : s.csAssigned = true) :
    show' s = Except.ok
      (Ev.cmd [ST7567_SET_START_LINE ||| 0x00] ::
        (List.range 8).flatMap (fun p =>
          [Ev.cmd [ST7567_SET_PAGE_ADDRESS ||| p,
                   ST7567_SET_COL_ADDRESS_MSB ||| 0x00,
                   ST7567_SET_COL_ADDRESS_LSB ||| s.xoffset],
           Ev.data ((s.buffer.drop (128 * p)).take 128)])) :=
  show_eq s hcs

/-- Witness for C8's amended statement at a concrete state. -/
theorem show_page_loop_structure_witness :
    cexS.csAssigned = true ∧
    show' cexS = Except.ok
      (Ev.cmd [ST7567_SET_START_LINE ||| 0x00] ::
        (List.range 8).flatMap (fun p =>
          [Ev.cmd [ST7567_SET_PAGE_ADDRESS ||| p,
                   ST7567_SET_COL_ADDRESS_MSB ||| 0x00,
                   ST7567_SET_COL_ADDRESS_LSB ||| cexS.xoffset],
           Ev.data ((cexS.buffer.drop (128 * p)).take 128)])) :=
  ⟨rfl, show_page_loop_structure cexS rfl⟩

/-- C4 counterexample: `rotate(90)` raises no error at all -- the call
returns normally, emitting nothing and leaving the state (offset included)
unchanged, instead of rejecting the value with a ConfigurationError. -/
theorem rotate_invalid_no_error_cex :
    rotate st0 90 = Except.ok (st0, []) :=
  rotate_other st0 90 (by decide) (by decide)

/-- C4 (amended): for every rotation value outside {0, 180}, `rotate`
emits no command bytes and leaves the device state, including the stored
column offset, unchanged -- but no error is raised: the invalid value is
silently ignored rather than rejected with a ConfigurationError. -/
theorem rotate_invalid_silently_ignored (s : DriverState) (rotation : Int)
    (h0 : rotation ≠ 0) (h180 : rotation ≠ 180) :
    rotate s rotation = Except.ok (s, []) :=
  rotate_other s rotation h0 h180

/-- Witness for C4's amended statement at rotation 90. -/
theorem rotate_invalid_silently_ignored_witness :
    ((90 : Int) ≠ 0 ∧ (90 : Int) ≠ 180) ∧ rotate cexS 90 = Except.ok (cexS, []) :=
  ⟨⟨by decide, by decide⟩, rotate_invalid_silently_ignored cexS 90 (by decide) (by decide)⟩

end ST7567

namespace ST7567

/-- C5: evaluating construction with the reset line omitted (`rs = None`,
chip-select supplied).  `reset()`'s guard reads `self.rs`, an attribute the
constructor never assigned, so construction fails with `AttributeError`;
no trace is produced and in particular the software-reset command byte
0xE2 is never issued. -/
theorem construct_without_reset_line_fails :
    construct true false 0 false 0x1F 0x03 = Except.error PyErr.attributeError := rfl

/-- C6: evaluating the runtime contrast operation at input 0x1F.  The code
hands the ints 0x81 and `0x1F & 0x3F` straight to `bytearray`, so the two
command transfers carry 129 and 31 ZERO bytes respectively: neither the EV
opcode byte 0x81 nor the masked value byte ever reaches the wire. -/
theorem contrast_bytearray_zero_padding :
    contrast st0 0x1F = Except.ok
      [Ev.cmd (List.replicate 0x81 0), Ev.cmd (List.replicate 0x1F 0)] := rfl

/-- C7: evaluating `sleep` at a concrete state.  Entering sleep writes two
command transfers of 174 and 165 zero bytes (`bytearray(0xAE)`,
`bytearray(0xA5)`), and waking writes 164 and 175 zero bytes -- the
display-off / all-pixels-on / all-pixels-normal / display-on opcode bytes
are never sent. -/
theorem sleep_bytearray_zero_padding :
    sleep st0 true = Except.ok
      [Ev.cmd (List.replicate 0xAE 0), Ev.cmd (List.replicate 0xA5 0)] ∧
    sleep st0 false = Except.ok
      [Ev.cmd (List.replicate 0xA4 0), Ev.cmd (List.replicate 0xAF 0)] :=
  ⟨rfl, rfl⟩

/-- C9: for rotation 0, `init()`'s sequence carries the COM-direction byte
0xC8 (reverse) while `rotate(0)` selects COM-direction 0xC0 (normal) --
the two methods disagree -- and `rotate`'s writes pass ints to
`bytearray`, so the wire actually carries 160 and 192 zero bytes rather
than any direction opcode. -/
theorem rotate_init_com_mismatch :
    (init_commands 0 false 0x1F 0x03)[4]? = some ST7567_COM_DIRECTION_REVERSE ∧
    rotate st0 0 = Except.ok ({ st0 with xoffset := 0x00 },
      [Ev.cmd (List.replicate ST7567_SEG_DIRECTION_NORMAL 0),
       Ev.cmd (List.replicate ST7567_COM_DIRECTION_NORMAL 0)]) ∧
    ST7567_COM_DIRECTION_NORMAL ≠ ST7567_COM_DIRECTION_REVERSE :=
  ⟨rfl, rotate_zero st0 rfl, by decide⟩

/-- A state whose `cs` attribute was never assigned. -/
def stNoCs : DriverState :=
  { xoffset := 0, buffer := [], csAssigned := false, rsAssigned := true }

/-- C10: with the chip-select argument omitted the `cs` attribute is never
assigned, and every bus write dereferences it first: every public
operation that writes fails with AttributeError, producing no bus bytes,
and construction itself (whose reset/show/init/rotate/invert all write)
fails with AttributeError for either setting of the reset line, so such a
driver can never complete construction. -/
theorem missing_cs_blocks_all_writes (s : DriverState) (h : s.csAssigned = false)
    (rotation : Int) (inverse onFlag rsGiven : Bool) (c rr : Nat) :
    show' s = Except.error PyErr.attributeError ∧
    init s rotation inverse c rr = Except.error PyErr.attributeError ∧
    contrast s c = Except.error PyErr.attributeError ∧
    invert s inverse = Except.error PyErr.attributeError ∧
    sleep s onFlag = Except.error PyErr.attributeError ∧
    rotate s 0 = Except.error PyErr.attributeError ∧
    rotate s 180 = Except.error PyErr.attributeError ∧
    reset s = Except.error PyErr.attributeError ∧
    construct false rsGiven rotation inverse c rr = Except.error PyErr.attributeError := by
  have hwc : ∀ v, write_command s v = Except.error PyErr.attributeError := by
    intro v
    simp [write_command, h]
  refine ⟨?_, ?_, ?_, ?_, ?_, ?_, ?_, ?_, ?_⟩
  · simp [show', hwc, error_bind]
  · simp [init, hwc, error_bind]
  · simp [contrast, hwc, error_bind]
  · cases inverse <;> simp [invert, hwc, error_bind]
  · cases onFlag <;> simp [sleep, hwc, error_bind]
  · simp [rotate, hwc, error_bind]
  · simp [rotate, hwc, error_bind]
  · cases hb : s.rsAssigned <;> simp [reset, hb, hwc, error_bind]
  · cases rsGiven <;> rfl

/-- Witness for C10 at a concrete state missing only the chip-select. -/
theorem missing_cs_blocks_all_writes_witness :
    stNoCs.csAssigned = false ∧
    (show' stNoCs = Except.error PyErr.attributeError ∧
     init stNoCs 0 false 0x1F 0x03 = Except.error PyErr.attributeError ∧
     contrast stNoCs 0x1F = Except.error PyErr.attributeError ∧
     invert stNoCs false = Except.error PyErr.attributeError ∧
     sleep stNoCs true = Except.error PyErr.attributeError ∧
     rotate stNoCs 0 = Except.error PyErr.attributeError ∧
     rotate stNoCs 180 = Except.error PyErr.attributeError ∧
     reset stNoCs = Except.error PyErr.attributeError ∧
     construct false false 0 false 0x1F 0x03 = Except.error PyErr.attributeError) :=
  ⟨rfl, missing_cs_blocks_all_writes stNoCs rfl 0 false true false 0x1F 0x03⟩

end ST7567
